import Mathlib

/-!
Verification of the JNI chat-listener adapter
(`rust/bridge/shared/types/src/jni/chat.rs`).

The adapter (`JniChatListener`) relays native chat events into a Java
listener object.  External collaborators (thread attachment, value
conversion, method invocation, exception translation) are modelled as a
per-call oracle recording how each collaborator behaves on that call; the
adapter code itself is translated faithfully.  Each event operation is a
pure function from the adapter, the oracle and the native arguments to an
outcome: either a normal return carrying the list of foreign calls issued
and the list of `log::error!` entries emitted, or a panic (from a failed
`.expect(..)`).
-/

namespace LibsignalJniChat

/-- Errors of the bridge layer (`BridgeLayerError` in the Rust source).
Only the shape matters to the adapter: every collaborator failure is some
value of this type. -/
inductive BridgeLayerError where
  | typeMismatch (expected actual : String)
  | conversionFailed (msg : String)
  | callFailed (msg : String)
deriving Repr, DecidableEq

/-- Failure of `JavaVM::attach_current_thread`. -/
structure AttachError where
  msg : String
deriving Repr, DecidableEq

/-- A `log::error!` entry emitted by the adapter.  The two constructors
correspond to the two literal format strings in the source:
`"failed to report {name}: {e}"` in `attach_and_log_on_error`, and
`"failed to call onConnectionInterrupted with cause: {error}"` in
`connection_interrupted`. -/
inductive LogEntry where
  | failedToReport (name : String) (e : BridgeLayerError)
  | failedCallOnConnectionInterruptedWithCause (e : BridgeLayerError)
deriving Repr, DecidableEq

/-- A call issued against the foreign (Java) listener object, with the
object identity it targets and the converted arguments. -/
inductive ForeignCall where
  | onIncomingMessage (target : Nat) (envelope : List Nat)
      (timestampMillis : Int) (ackHandle : Int)
  | onQueueEmpty (target : Nat)
  | onConnectionInterrupted (target : Nat) (throwable : Nat)
deriving Repr, DecidableEq

/-- Result of the fallible closure passed to `attach_and_log_on_error`:
its Rust return value plus the foreign calls and log entries it produced. -/
structure ActionResult where
  result : Except BridgeLayerError Unit
  calls : List ForeignCall
  logs : List LogEntry
deriving Repr

/-- Outcome of one event operation: a normal return (with the foreign
calls issued and log entries emitted), or a panic from a failed
`.expect(..)`. -/
inductive OpResult where
  | normal (calls : List ForeignCall) (logs : List LogEntry)
  | panicked (msg : String)
deriving Repr, DecidableEq

/-- A foreign object as the adapter sees it: an identity and a reported
class name (`ForeignListenerObject` in the spec). -/
structure JObjectModel where
  objId : Nat
  className : String
deriving Repr, DecidableEq

/-- A `JNIEnv`, reduced to the `JavaVM` pointer obtainable from it. -/
structure JNIEnvModel where
  vmPtr : Nat
deriving Repr, DecidableEq

/-- The expected contract name checked at construction
(`ClassName("org.signal.libsignal.net.internal.MakeChatListener")`). -/
def expectedListenerClassName : String :=
  "org.signal.libsignal.net.internal.MakeChatListener"

/-- Modelled from the spec: `check_jobject_type` (generic JNI helper, not
in this source file) validates that the object's reported type name
exactly matches the expected contract name, failing with a type-mismatch
bridge error on mismatch. -/
def check_jobject_type (obj : JObjectModel) (expected : String) :
    Except BridgeLayerError Unit :=
  if obj.className = expected then Except.ok ()
  else Except.error (BridgeLayerError.typeMismatch expected obj.className)

/-- The adapter: an un-owned raw `JavaVM` pointer and the identity of the
foreign listener object held through a global reference. -/
structure JniChatListener where
  vmPtr : Nat
  listenerObj : Nat
deriving Repr, DecidableEq

/-- `JniChatListener::new`.  The foreign object's reference count `rc` is
threaded explicitly: `new_global_ref` acquires one strong reference on
success; on the mismatch path the function returns before acquiring
anything, so `rc` is unchanged. -/
def JniChatListener.new (env : JNIEnvModel) (obj : JObjectModel) (rc : Nat) :
    Except BridgeLayerError JniChatListener × Nat :=
  match check_jobject_type obj expectedListenerClassName with
  | Except.error e => (Except.error e, rc)
  | Except.ok () =>
      (Except.ok { vmPtr := env.vmPtr, listenerObj := obj.objId }, rc + 1)

/-- `<Clone for JniChatListener>::clone`: re-derives a `JavaVM` from the
same raw pointer (`JavaVM::from_raw(self.vm.get_java_vm_pointer())`) and
clones the global reference, acquiring one more strong reference to the
same object. -/
def JniChatListener.clone (l : JniChatListener) (rc : Nat) :
    JniChatListener × Nat :=
  ({ vmPtr := l.vmPtr, listenerObj := l.listenerObj }, rc + 1)

/-- Modelled from the spec: dropping an adapter releases its one strong
reference (`GlobalRef`'s destructor, outside this source file): one
paired release per acquire. -/
def JniChatListener.drop (_l : JniChatListener) (rc : Nat) : Nat := rc - 1

/-- `<MakeChatListener for JniChatListener>::make_listener`: boxes a
clone of the adapter. -/
def JniChatListener.make_listener (l : JniChatListener) (rc : Nat) :
    JniChatListener × Nat :=
  l.clone rc

/-- A native timestamp carrying epoch milliseconds as a `u64`
(`Timestamp::epoch_millis`). -/
structure Timestamp where
  epochMillisU64 : Nat
deriving Repr, DecidableEq

/-- `Timestamp::epoch_millis`. -/
def Timestamp.epoch_millis (t : Timestamp) : Nat := t.epochMillisU64

/-- The Rust `as i64` cast applied to a `u64` value: reduce modulo 2^64,
then reinterpret as a signed 64-bit integer. -/
def i64OfU64 (n : Nat) : Int :=
  if n % 2 ^ 64 < 2 ^ 63 then (n % 2 ^ 64 : Int)
  else (n % 2 ^ 64 : Int) - 2 ^ 64

/-- A disconnect cause (`ChatServiceError`), opaque to the adapter. -/
structure DisconnectCause where
  code : Nat
deriving Repr, DecidableEq

/-- Per-call behavior of the external collaborators:
`attach` is `attach_current_thread`; `envelopeConvFails` is a failure of
`envelope.convert_into` (on success the foreign byte array is
byte-identical to the envelope); `ackConv` is `ack.convert_into`,
minting an opaque 64-bit handle; `invoke` is a failure of
`call_method_checked` (the foreign method raising); `translate` is the
`Result` handed to the closure by `convert_to_exception` for a given
cause. -/
structure JniOracle where
  attach : Except AttachError Unit
  envelopeConvFails : Option BridgeLayerError
  ackConv : Except BridgeLayerError Int
  invoke : Option BridgeLayerError
  translate : DisconnectCause → Except BridgeLayerError Nat
deriving Inhabited

/-- Modelled from the spec: `ValueConversion.convert` on a byte sequence
(`Vec<u8>::convert_into`, outside this source file) produces a
byte-identical foreign byte array, or fails with a conversion error. -/
def convertEnvelope (failure : Option BridgeLayerError)
    (envelope : List Nat) : Except BridgeLayerError (List Nat) :=
  match failure with
  | some e => Except.error e
  | none => Except.ok envelope

/-- `JniChatListener::attach_and_log_on_error`: attach the current
thread (panicking with `"can attach thread"` if that fails, via
`.expect`), run the operation, and on failure log
`"failed to report {name}: {e}"` and return unit. -/
def attach_and_log_on_error (attach : Except AttachError Unit)
    (name : String) (operation : ActionResult) : OpResult :=
  match attach with
  | Except.error _ => OpResult.panicked "can attach thread"
  | Except.ok () =>
      match operation.result with
      | Except.ok () => OpResult.normal operation.calls operation.logs
      | Except.error e =>
          OpResult.normal operation.calls
            (operation.logs ++ [LogEntry.failedToReport name e])

/-- The closure of `received_incoming_message`: convert the envelope,
then the ack, each with `?` (short-circuit), then issue
`onIncomingMessage(byte[], long, long)`. -/
def received_incoming_message_action (l : JniChatListener)
    (o : JniOracle) (envelope : List Nat) (timestamp : Timestamp) :
    ActionResult :=
  match convertEnvelope o.envelopeConvFails envelope with
  | Except.error e => { result := Except.error e, calls := [], logs := [] }
  | Except.ok envArray =>
      match o.ackConv with
      | Except.error e => { result := Except.error e, calls := [], logs := [] }
      | Except.ok ackHandle =>
          { result :=
              match o.invoke with
              | some e => Except.error e
              | none => Except.ok ()
            calls := [ForeignCall.onIncomingMessage l.listenerObj envArray
              (i64OfU64 timestamp.epoch_millis) ackHandle]
            logs := [] }

/-- `ChatListener::received_incoming_message` for `JniChatListener`. -/
def received_incoming_message (l : JniChatListener) (o : JniOracle)
    (envelope : List Nat) (timestamp : Timestamp) : OpResult :=
  attach_and_log_on_error o.attach "incoming message"
    (received_incoming_message_action l o envelope timestamp)

/-- The closure of `received_queue_empty`: issue `onQueueEmpty()`. -/
def received_queue_empty_action (l : JniChatListener) (o : JniOracle) :
    ActionResult :=
  { result :=
      match o.invoke with
      | some e => Except.error e
      | none => Except.ok ()
    calls := [ForeignCall.onQueueEmpty l.listenerObj]
    logs := [] }

/-- `ChatListener::received_queue_empty` for `JniChatListener`. -/
def received_queue_empty (l : JniChatListener) (o : JniOracle) : OpResult :=
  attach_and_log_on_error o.attach "queue empty"
    (received_queue_empty_action l o)

/-- The closure of `connection_interrupted`: `convert_to_exception`
hands the closure a `Result` throwable; `.and_then` issues
`onConnectionInterrupted(Throwable)` when translation succeeded, and
`.unwrap_or_else` logs
`"failed to call onConnectionInterrupted with cause: {error}"` on either
a translation or an invocation failure.  The closure itself always
returns `Ok(())`. -/
def connection_interrupted_action (l : JniChatListener) (o : JniOracle)
    (cause : DisconnectCause) : ActionResult :=
  match o.translate cause with
  | Except.error e =>
      { result := Except.ok (), calls := [],
        logs := [LogEntry.failedCallOnConnectionInterruptedWithCause e] }
  | Except.ok throwable =>
      match o.invoke with
      | none =>
          { result := Except.ok (),
            calls := [ForeignCall.onConnectionInterrupted l.listenerObj
              throwable],
            logs := [] }
      | some e =>
          { result := Except.ok (),
            calls := [ForeignCall.onConnectionInterrupted l.listenerObj
              throwable],
            logs := [LogEntry.failedCallOnConnectionInterruptedWithCause e] }

/-- `ChatListener::connection_interrupted` for `JniChatListener`. -/
def connection_interrupted (l : JniChatListener) (o : JniOracle)
    (cause : DisconnectCause) : OpResult :=
  attach_and_log_on_error o.attach "connection interrupted"
    (connection_interrupted_action l o cause)

/-- One native chat event, for reasoning about call histories. -/
inductive ChatEvent where
  | incomingMessage (envelope : List Nat) (timestamp : Timestamp)
  | queueEmpty
  | connectionInterrupted (cause : DisconnectCause)

/-- Dispatch one event on the adapter.  The Rust methods take
`&mut self` but never assign to a field, so the adapter value after the
call is the adapter value before it. -/
def stepListener (l : JniChatListener) (o : JniOracle) :
    ChatEvent → JniChatListener × OpResult
  | ChatEvent.incomingMessage envelope ts =>
      (l, received_incoming_message l o envelope ts)
  | ChatEvent.queueEmpty => (l, received_queue_empty l o)
  | ChatEvent.connectionInterrupted cause =>
      (l, connection_interrupted l o cause)

/-- Run a history of events (each with its own collaborator behavior),
threading the adapter value. -/
def runHistory (l : JniChatListener) :
    List (JniOracle × ChatEvent) → JniChatListener
  | [] => l
  | (o, e) :: rest => runHistory (stepListener l o e).1 rest

/-- Clone the adapter `n` times in sequence, threading the foreign
object's reference count. -/
def cloneTimes : Nat → JniChatListener × Nat → JniChatListener × Nat
  | 0, s => s
  | n + 1, (l, rc) => cloneTimes n (l.clone rc)

/-- Drop `n` adapter instances in sequence, threading the reference
count. -/
def dropTimes (l : JniChatListener) : Nat → Nat → Nat
  | 0, rc => rc
  | n + 1, rc => dropTimes l n (l.drop rc)

/-- The lifecycle scenario of the spec's testable property: construct an
adapter from `obj` at reference count `rc0`, clone it `n` times, then
drop all `n + 1` instances; the result is the final reference count. -/
def constructCloneDropScenario (env : JNIEnvModel) (obj : JObjectModel)
    (n rc0 : Nat) : Nat :=
  match JniChatListener.new env obj rc0 with
  | (Except.error _, rc) => rc
  | (Except.ok l, rc1) =>
      let s := cloneTimes n (l, rc1)
      dropTimes s.1 (n + 1) s.2

/-- Whether a log entry is of the `"failed to report {name}: {e}"` form
with `name` one of the three operation names of the spec. -/
def isOpNameLog (entry : LogEntry) : Bool :=
  match entry with
  | LogEntry.failedToReport name _ =>
      name = "incoming message" || name = "queue empty" ||
        name = "connection interrupted"
  | LogEntry.failedCallOnConnectionInterruptedWithCause _ => false


/-! ## Helper lemmas -/

theorem stepListener_fst (l : JniChatListener) (o : JniOracle)
    (e : ChatEvent) : (stepListener l o e).1 = l := by
  cases e <;> rfl

theorem runHistory_id (l : JniChatListener) :
    ∀ h : List (JniOracle × ChatEvent), runHistory l h = l := by
  intro h
  induction h with
  | nil => rfl
  | cons p rest ih =>
      obtain ⟨o, e⟩ := p
      have h1 : runHistory l ((o, e) :: rest) =
          runHistory (stepListener l o e).1 rest := rfl
      rw [h1, stepListener_fst]
      exact ih

theorem attach_and_log_on_error_ok_normal (name : String)
    (a : ActionResult) :
    ∃ calls logs, attach_and_log_on_error (Except.ok ()) name a =
      OpResult.normal calls logs := by
  match h : a.result with
  | Except.ok () =>
      exact ⟨a.calls, a.logs, by simp [attach_and_log_on_error, h]⟩
  | Except.error e =>
      exact ⟨a.calls, a.logs ++ [LogEntry.failedToReport name e],
        by simp [attach_and_log_on_error, h]⟩

theorem cloneTimes_eq (n : Nat) (l : JniChatListener) (rc : Nat) :
    cloneTimes n (l, rc) = (l, rc + n) := by
  induction n generalizing rc with
  | zero => rfl
  | succ k ih =>
      have h1 : cloneTimes (k + 1) (l, rc) = cloneTimes k (l, rc + 1) := rfl
      rw [h1, ih]
      congr 1
      omega

theorem dropTimes_eq (l : JniChatListener) (n rc : Nat) :
    dropTimes l n rc = rc - n := by
  induction n generalizing rc with
  | zero => rfl
  | succ k ih =>
      have h1 : dropTimes l (k + 1) rc = dropTimes l k (rc - 1) := rfl
      rw [h1, ih]
      omega


/-! ## Claim theorems -/

/-- C1: for every byte sequence, timestamp and ack token (conversions
succeeding, the ack handle minted), `received_incoming_message` issues
exactly one foreign call to `onIncomingMessage` with the byte-identical
envelope, the timestamp as an epoch-millisecond `i64`, and the minted
ack handle, and it returns normally even when the foreign call raises
(any value of `o.invoke`). -/
theorem received_incoming_message_delivers_exactly_once
    (l : JniChatListener) (o : JniOracle) (envelope : List Nat)
    (ts : Timestamp) (ackHandle : Int)
    (ha : o.attach = Except.ok ())
    (he : o.envelopeConvFails = none)
    (hk : o.ackConv = Except.ok ackHandle) :
    ∃ logs, received_incoming_message l o envelope ts =
      OpResult.normal
        [ForeignCall.onIncomingMessage l.listenerObj envelope
          (i64OfU64 ts.epoch_millis) ackHandle] logs := by
  cases hi : o.invoke with
  | none =>
      refine ⟨[], ?_⟩
      simp [received_incoming_message, received_incoming_message_action,
        convertEnvelope, attach_and_log_on_error, ha, he, hk, hi]
  | some e =>
      refine ⟨[LogEntry.failedToReport "incoming message" e], ?_⟩
      simp [received_incoming_message, received_incoming_message_action,
        convertEnvelope, attach_and_log_on_error, ha, he, hk, hi]

/-- Witness for C1 at a concrete envelope, timestamp and ack handle. -/
theorem received_incoming_message_delivers_exactly_once_witness :
    ∃ logs, received_incoming_message ⟨0, 7⟩
      ⟨Except.ok (), none, Except.ok 42, none, fun _ => Except.ok 0⟩
      [1, 2, 3] ⟨5⟩ =
      OpResult.normal
        [ForeignCall.onIncomingMessage 7 [1, 2, 3]
          (i64OfU64 (Timestamp.epoch_millis ⟨5⟩)) 42] logs :=
  received_incoming_message_delivers_exactly_once ⟨0, 7⟩
    ⟨Except.ok (), none, Except.ok 42, none, fun _ => Except.ok 0⟩
    [1, 2, 3] ⟨5⟩ 42 rfl rfl rfl

/-- C2: every event operation is the dispatch-isolation helper
`attach_and_log_on_error` applied to its operation name and fallible
action; the helper logs the operation name with the error on any action
failure; with the thread attached, every event operation returns
normally (no conversion, invocation or translation error propagates);
and any history of calls leaves the adapter value unchanged, so
subsequent calls are unaffected. -/
theorem event_operations_use_dispatch_isolation
    (l : JniChatListener) (o : JniOracle) (envelope : List Nat)
    (ts : Timestamp) (cause : DisconnectCause)
    (ha : o.attach = Except.ok ()) :
    (received_incoming_message l o envelope ts =
       attach_and_log_on_error o.attach "incoming message"
         (received_incoming_message_action l o envelope ts)) ∧
    (received_queue_empty l o =
       attach_and_log_on_error o.attach "queue empty"
         (received_queue_empty_action l o)) ∧
    (connection_interrupted l o cause =
       attach_and_log_on_error o.attach "connection interrupted"
         (connection_interrupted_action l o cause)) ∧
    (∀ name a e, a.result = Except.error e →
       attach_and_log_on_error o.attach name a =
         OpResult.normal a.calls
           (a.logs ++ [LogEntry.failedToReport name e])) ∧
    (∃ calls logs, received_incoming_message l o envelope ts =
       OpResult.normal calls logs) ∧
    (∃ calls logs, received_queue_empty l o =
       OpResult.normal calls logs) ∧
    (∃ calls logs, connection_interrupted l o cause =
       OpResult.normal calls logs) ∧
    (∀ h : List (JniOracle × ChatEvent), runHistory l h = l) := by
  refine ⟨rfl, rfl, rfl, ?_, ?_, ?_, ?_, runHistory_id l⟩
  · intro name a e hres
    simp [attach_and_log_on_error, ha, hres]
  · rw [received_incoming_message, ha]
    exact attach_and_log_on_error_ok_normal _ _
  · rw [received_queue_empty, ha]
    exact attach_and_log_on_error_ok_normal _ _
  · rw [connection_interrupted, ha]
    exact attach_and_log_on_error_ok_normal _ _

/-- Witness for C2 at a concrete adapter and oracle. -/
theorem event_operations_use_dispatch_isolation_witness :
    ∃ calls logs, received_queue_empty ⟨0, 7⟩
      ⟨Except.ok (), none, Except.ok 0, none, fun _ => Except.ok 0⟩ =
      OpResult.normal calls logs :=
  (event_operations_use_dispatch_isolation ⟨0, 7⟩
    ⟨Except.ok (), none, Except.ok 0, none, fun _ => Except.ok 0⟩
    [] ⟨0⟩ ⟨0⟩ rfl).2.2.2.2.2.1

/-- C3: `connection_interrupted` first translates the cause; on
translation failure exactly one diagnostic is logged and no foreign call
is issued; on success exactly one foreign call to
`onConnectionInterrupted` with the translated throwable is issued, and
an invocation failure is logged (with the cause-context diagnostic)
rather than propagated. -/
theorem connection_interrupted_translation_gates_call
    (l : JniChatListener) (o : JniOracle) (cause : DisconnectCause)
    (ha : o.attach = Except.ok ()) :
    (∀ e, o.translate cause = Except.error e →
       connection_interrupted l o cause =
         OpResult.normal []
           [LogEntry.failedCallOnConnectionInterruptedWithCause e]) ∧
    (∀ th, o.translate cause = Except.ok th → o.invoke = none →
       connection_interrupted l o cause =
         OpResult.normal
           [ForeignCall.onConnectionInterrupted l.listenerObj th] []) ∧
    (∀ th e, o.translate cause = Except.ok th → o.invoke = some e →
       connection_interrupted l o cause =
         OpResult.normal
           [ForeignCall.onConnectionInterrupted l.listenerObj th]
           [LogEntry.failedCallOnConnectionInterruptedWithCause e]) := by
  refine ⟨?_, ?_, ?_⟩ <;> intros <;>
    simp [connection_interrupted, connection_interrupted_action,
      attach_and_log_on_error, ha, *]

/-- Witness for C3: a concrete failing translation yields one log entry
and no foreign call. -/
theorem connection_interrupted_translation_gates_call_witness :
    connection_interrupted ⟨0, 7⟩
      ⟨Except.ok (), none, Except.ok 0, none,
        fun _ => Except.error (BridgeLayerError.callFailed "boom")⟩ ⟨1⟩ =
      OpResult.normal []
        [LogEntry.failedCallOnConnectionInterruptedWithCause
          (BridgeLayerError.callFailed "boom")] :=
  (connection_interrupted_translation_gates_call ⟨0, 7⟩
    ⟨Except.ok (), none, Except.ok 0, none,
      fun _ => Except.error (BridgeLayerError.callFailed "boom")⟩ ⟨1⟩
    rfl).1 (BridgeLayerError.callFailed "boom") rfl

/-- C4: construction validates the reported type name first: on
mismatch it returns the type-mismatch error with the reference count of
the object unchanged (nothing acquired); on match it returns an adapter
holding the runtime pointer and the object identity, with one strong
reference acquired. -/
theorem new_validates_type_before_acquiring
    (env : JNIEnvModel) (obj : JObjectModel) (rc : Nat) :
    (obj.className ≠ expectedListenerClassName →
       JniChatListener.new env obj rc =
         (Except.error (BridgeLayerError.typeMismatch
           expectedListenerClassName obj.className), rc)) ∧
    (obj.className = expectedListenerClassName →
       JniChatListener.new env obj rc =
         (Except.ok { vmPtr := env.vmPtr, listenerObj := obj.objId },
           rc + 1)) := by
  constructor <;> intro h <;>
    simp [JniChatListener.new, check_jobject_type, h]

/-- Witness for C4: a wrongly named object is rejected with the count
unchanged; a correctly named object yields a ready adapter with the
count incremented. -/
theorem new_validates_type_before_acquiring_witness :
    (JniChatListener.new ⟨3⟩ ⟨9, "wrong.Class"⟩ 5 =
      (Except.error (BridgeLayerError.typeMismatch
        expectedListenerClassName "wrong.Class"), 5)) ∧
    (JniChatListener.new ⟨3⟩ ⟨9, expectedListenerClassName⟩ 5 =
      (Except.ok ⟨3, 9⟩, 6)) :=
  ⟨(new_validates_type_before_acquiring ⟨3⟩ ⟨9, "wrong.Class"⟩ 5).1
      (by decide),
   (new_validates_type_before_acquiring ⟨3⟩
      ⟨9, expectedListenerClassName⟩ 5).2 rfl⟩


/-- C5 counterexample: a swallowed translation failure inside
`connection_interrupted` is logged with the
`"failed to call onConnectionInterrupted with cause"` diagnostic, which
carries none of the three operation names — so not every swallowed
failure is logged with an operation name from the set. -/
theorem swallowed_failure_logged_without_op_name :
    connection_interrupted ⟨0, 7⟩
      ⟨Except.ok (), none, Except.ok 0, none,
        fun _ => Except.error (BridgeLayerError.conversionFailed "bad")⟩
      ⟨1⟩ =
      OpResult.normal []
        [LogEntry.failedCallOnConnectionInterruptedWithCause
          (BridgeLayerError.conversionFailed "bad")] ∧
    isOpNameLog (LogEntry.failedCallOnConnectionInterruptedWithCause
      (BridgeLayerError.conversionFailed "bad")) = false :=
  ⟨rfl, rfl⟩

/-- C5 (amended): failures swallowed by the dispatch-isolation helper —
every conversion and invocation failure in `received_incoming_message`
and `received_queue_empty` — are logged with an operation name from
{"incoming message", "queue empty", "connection interrupted"} plus the
error; failures swallowed on the `connection_interrupted` path
(translation and invocation) are instead logged with the fixed
`onConnectionInterrupted` cause diagnostic carrying the error. -/
theorem swallowed_failures_logging_shape
    (l : JniChatListener) (o : JniOracle) (envelope : List Nat)
    (ts : Timestamp) (cause : DisconnectCause)
    (ha : o.attach = Except.ok ()) :
    (∀ calls logs, received_incoming_message l o envelope ts =
        OpResult.normal calls logs →
      ∀ entry ∈ logs, isOpNameLog entry = true) ∧
    (∀ calls logs, received_queue_empty l o =
        OpResult.normal calls logs →
      ∀ entry ∈ logs, isOpNameLog entry = true) ∧
    (∀ calls logs, connection_interrupted l o cause =
        OpResult.normal calls logs →
      ∀ entry ∈ logs, ∃ e,
        entry = LogEntry.failedCallOnConnectionInterruptedWithCause e) := by
  refine ⟨?_, ?_, ?_⟩
  · intro calls logs heq entry hmem
    cases he : o.envelopeConvFails with
    | some e =>
        simp [received_incoming_message,
          received_incoming_message_action, convertEnvelope,
          attach_and_log_on_error, ha, he] at heq
        obtain ⟨hc, hl⟩ := heq
        subst hl
        simp at hmem
        rw [hmem]
        rfl
    | none =>
        cases hk : o.ackConv with
        | error e =>
            simp [received_incoming_message,
              received_incoming_message_action, convertEnvelope,
              attach_and_log_on_error, ha, he, hk] at heq
            obtain ⟨hc, hl⟩ := heq
            subst hl
            simp at hmem
            rw [hmem]
            rfl
        | ok ackHandle =>
            cases hi : o.invoke with
            | none =>
                simp [received_incoming_message,
                  received_incoming_message_action, convertEnvelope,
                  attach_and_log_on_error, ha, he, hk, hi] at heq
                obtain ⟨hc, hl⟩ := heq
                subst hl
                simp at hmem
            | some e =>
                simp [received_incoming_message,
                  received_incoming_message_action, convertEnvelope,
                  attach_and_log_on_error, ha, he, hk, hi] at heq
                obtain ⟨hc, hl⟩ := heq
                subst hl
                simp at hmem
                rw [hmem]
                rfl
  · intro calls logs heq entry hmem
    cases hi : o.invoke with
    | none =>
        simp [received_queue_empty, received_queue_empty_action,
          attach_and_log_on_error, ha, hi] at heq
        obtain ⟨hc, hl⟩ := heq
        subst hl
        simp at hmem
    | some e =>
        simp [received_queue_empty, received_queue_empty_action,
          attach_and_log_on_error, ha, hi] at heq
        obtain ⟨hc, hl⟩ := heq
        subst hl
        simp at hmem
        rw [hmem]
        rfl
  · intro calls logs heq entry hmem
    cases ht : o.translate cause with
    | error e =>
        simp [connection_interrupted, connection_interrupted_action,
          attach_and_log_on_error, ha, ht] at heq
        obtain ⟨hc, hl⟩ := heq
        subst hl
        simp at hmem
        exact ⟨e, hmem⟩
    | ok th =>
        cases hi : o.invoke with
        | none =>
            simp [connection_interrupted, connection_interrupted_action,
              attach_and_log_on_error, ha, ht, hi] at heq
            obtain ⟨hc, hl⟩ := heq
            subst hl
            simp at hmem
        | some e =>
            simp [connection_interrupted, connection_interrupted_action,
              attach_and_log_on_error, ha, ht, hi] at heq
            obtain ⟨hc, hl⟩ := heq
            subst hl
            simp at hmem
            exact ⟨e, hmem⟩


/-- Witness for the amended C5: a concrete swallowed envelope-conversion
failure is logged with the operation name "incoming message". -/
theorem swallowed_failures_logging_shape_witness :
    isOpNameLog (LogEntry.failedToReport "incoming message"
      (BridgeLayerError.conversionFailed "x")) = true :=
  (swallowed_failures_logging_shape ⟨0, 7⟩
    ⟨Except.ok (), some (BridgeLayerError.conversionFailed "x"),
      Except.ok 0, none, fun _ => Except.ok 0⟩ [] ⟨0⟩ ⟨0⟩ rfl).1
    [] [LogEntry.failedToReport "incoming message"
      (BridgeLayerError.conversionFailed "x")] rfl
    (LogEntry.failedToReport "incoming message"
      (BridgeLayerError.conversionFailed "x")) (by simp)

/-- C6: a failure of thread attachment makes every event operation
panic (the `.expect("can attach thread")`), which is a propagated fatal
signal, never a normal return with only a diagnostic log. -/
theorem attach_failure_propagates
    (l : JniChatListener) (o : JniOracle) (envelope : List Nat)
    (ts : Timestamp) (cause : DisconnectCause) (e : AttachError)
    (ha : o.attach = Except.error e) :
    received_incoming_message l o envelope ts =
      OpResult.panicked "can attach thread" ∧
    received_queue_empty l o = OpResult.panicked "can attach thread" ∧
    connection_interrupted l o cause =
      OpResult.panicked "can attach thread" ∧
    ∀ calls logs,
      OpResult.panicked "can attach thread" ≠
        OpResult.normal calls logs := by
  refine ⟨?_, ?_, ?_, ?_⟩
  · simp [received_incoming_message, attach_and_log_on_error, ha]
  · simp [received_queue_empty, attach_and_log_on_error, ha]
  · simp [connection_interrupted, attach_and_log_on_error, ha]
  · intro calls logs h
    exact OpResult.noConfusion h

/-- Witness for C6 at a concrete failing attachment. -/
theorem attach_failure_propagates_witness :
    received_queue_empty ⟨0, 7⟩
      ⟨Except.error ⟨"vm gone"⟩, none, Except.ok 0, none,
        fun _ => Except.ok 0⟩ =
      OpResult.panicked "can attach thread" :=
  (attach_failure_propagates ⟨0, 7⟩
    ⟨Except.error ⟨"vm gone"⟩, none, Except.ok 0, none,
      fun _ => Except.ok 0⟩ [] ⟨0⟩ ⟨0⟩ ⟨"vm gone"⟩ rfl).2.1

/-- C7 counterexample: constructing from a correctly typed object at
reference count 5, cloning zero times and dropping the one instance
leaves the count at 5 — its pre-construction value — not net-decreased
by one to 4 as the claim states. -/
theorem refcount_not_net_decreased_by_one :
    constructCloneDropScenario ⟨0⟩ ⟨7, expectedListenerClassName⟩ 0 5 = 5 ∧
    (5 : Nat) ≠ 5 - 1 :=
  ⟨rfl, by decide⟩

/-- C7 (amended): a clone shares the same raw runtime pointer and the
same foreign listener object while acquiring one more strong reference;
constructing an adapter, cloning it `n` times and dropping all `n + 1`
instances returns the foreign object's reference count exactly to its
pre-construction value (each instance pairs one acquire with one
release), equivalently a net decrease of one from the post-construction
value. -/
theorem adapter_lifecycle_refcount_net_zero
    (env : JNIEnvModel) (obj : JObjectModel) (n rc0 : Nat)
    (h : obj.className = expectedListenerClassName) :
    (∀ (l : JniChatListener) (rc : Nat),
       (l.clone rc).1.vmPtr = l.vmPtr ∧
       (l.clone rc).1.listenerObj = l.listenerObj ∧
       (l.clone rc).2 = rc + 1) ∧
    constructCloneDropScenario env obj n rc0 = rc0 := by
  refine ⟨fun l rc => ⟨rfl, rfl, rfl⟩, ?_⟩
  have hnew : JniChatListener.new env obj rc0 =
      (Except.ok ⟨env.vmPtr, obj.objId⟩, rc0 + 1) := by
    simp [JniChatListener.new, check_jobject_type, h]
  simp [constructCloneDropScenario, hnew, cloneTimes_eq, dropTimes_eq]
  omega

/-- Witness for the amended C7 at a concrete object and count. -/
theorem adapter_lifecycle_refcount_net_zero_witness :
    constructCloneDropScenario ⟨0⟩ ⟨7, expectedListenerClassName⟩ 3 5 = 5 :=
  (adapter_lifecycle_refcount_net_zero ⟨0⟩
    ⟨7, expectedListenerClassName⟩ 3 5 rfl).2


/-- C8: `make_listener` is exactly `clone`: the instance it returns
references the same runtime pointer and the same foreign listener
object, and every event operation behaves identically on it and on the
original adapter. -/
theorem make_listener_is_clone (l : JniChatListener) (rc : Nat) :
    l.make_listener rc = l.clone rc ∧
    (l.make_listener rc).1 = l ∧
    (∀ (o : JniOracle) (envelope : List Nat) (ts : Timestamp),
       received_incoming_message (l.make_listener rc).1 o envelope ts =
         received_incoming_message l o envelope ts) ∧
    (∀ o : JniOracle, received_queue_empty (l.make_listener rc).1 o =
       received_queue_empty l o) ∧
    (∀ (o : JniOracle) (cause : DisconnectCause),
       connection_interrupted (l.make_listener rc).1 o cause =
         connection_interrupted l o cause) :=
  ⟨rfl, rfl, fun _ _ _ => rfl, fun _ => rfl, fun _ _ => rfl⟩

/-- C9: `received_queue_empty` issues exactly one zero-argument foreign
call to `onQueueEmpty`; any history of prior event operations leaves the
adapter value unchanged (the adapter carries no mutable state beyond its
held references), so the effect after any history equals the effect on a
fresh adapter. -/
theorem received_queue_empty_single_call_history_independent
    (l : JniChatListener) (o : JniOracle)
    (h : List (JniOracle × ChatEvent))
    (ha : o.attach = Except.ok ()) :
    runHistory l h = l ∧
    received_queue_empty (runHistory l h) o = received_queue_empty l o ∧
    ∃ logs, received_queue_empty l o =
      OpResult.normal [ForeignCall.onQueueEmpty l.listenerObj] logs := by
  refine ⟨runHistory_id l h, by rw [runHistory_id], ?_⟩
  cases hi : o.invoke with
  | none =>
      refine ⟨[], ?_⟩
      simp [received_queue_empty, received_queue_empty_action,
        attach_and_log_on_error, ha, hi]
  | some e =>
      refine ⟨[LogEntry.failedToReport "queue empty" e], ?_⟩
      simp [received_queue_empty, received_queue_empty_action,
        attach_and_log_on_error, ha, hi]

/-- Witness for C9 after a concrete nonempty history. -/
theorem received_queue_empty_single_call_history_independent_witness :
    ∃ logs, received_queue_empty ⟨0, 7⟩
      ⟨Except.ok (), none, Except.ok 0, none, fun _ => Except.ok 0⟩ =
      OpResult.normal [ForeignCall.onQueueEmpty 7] logs :=
  (received_queue_empty_single_call_history_independent ⟨0, 7⟩
    ⟨Except.ok (), none, Except.ok 0, none, fun _ => Except.ok 0⟩
    [(⟨Except.ok (), none, Except.ok 0,
        some (BridgeLayerError.callFailed "boom"), fun _ => Except.ok 0⟩,
      ChatEvent.queueEmpty)] rfl).2.2

/-- C10: in `received_incoming_message` the conversions short-circuit in
order: an envelope-conversion failure yields zero foreign calls and one
diagnostic, and the result does not depend on the ack conversion (it is
never attempted); an ack-conversion failure after a successful envelope
conversion also yields zero foreign calls and one diagnostic; both
failure cases return normally. -/
theorem incoming_message_conversion_short_circuit
    (l : JniChatListener) (o : JniOracle) (envelope : List Nat)
    (ts : Timestamp) (e : BridgeLayerError)
    (ha : o.attach = Except.ok ()) :
    (o.envelopeConvFails = some e →
       received_incoming_message l o envelope ts =
         OpResult.normal []
           [LogEntry.failedToReport "incoming message" e] ∧
       ∀ ack, received_incoming_message l
           { o with ackConv := ack } envelope ts =
         received_incoming_message l o envelope ts) ∧
    (o.envelopeConvFails = none → o.ackConv = Except.error e →
       received_incoming_message l o envelope ts =
         OpResult.normal []
           [LogEntry.failedToReport "incoming message" e]) := by
  constructor
  · intro he
    constructor
    · simp [received_incoming_message,
        received_incoming_message_action, convertEnvelope,
        attach_and_log_on_error, ha, he]
    · intro ack
      simp [received_incoming_message,
        received_incoming_message_action, convertEnvelope,
        attach_and_log_on_error, ha, he]
  · intro he hk
    simp [received_incoming_message, received_incoming_message_action,
      convertEnvelope, attach_and_log_on_error, ha, he, hk]

/-- Witness for C10: a concrete envelope-conversion failure and a
concrete ack-conversion failure each yield zero calls and one log. -/
theorem incoming_message_conversion_short_circuit_witness :
    (received_incoming_message ⟨0, 7⟩
      ⟨Except.ok (), some (BridgeLayerError.conversionFailed "env"),
        Except.ok 0, none, fun _ => Except.ok 0⟩ [1] ⟨2⟩ =
      OpResult.normal []
        [LogEntry.failedToReport "incoming message"
          (BridgeLayerError.conversionFailed "env")]) ∧
    (received_incoming_message ⟨0, 7⟩
      ⟨Except.ok (), none,
        Except.error (BridgeLayerError.conversionFailed "ack"), none,
        fun _ => Except.ok 0⟩ [1] ⟨2⟩ =
      OpResult.normal []
        [LogEntry.failedToReport "incoming message"
          (BridgeLayerError.conversionFailed "ack")]) :=
  ⟨((incoming_message_conversion_short_circuit ⟨0, 7⟩
      ⟨Except.ok (), some (BridgeLayerError.conversionFailed "env"),
        Except.ok 0, none, fun _ => Except.ok 0⟩ [1] ⟨2⟩
      (BridgeLayerError.conversionFailed "env") rfl).1 rfl).1,
   (incoming_message_conversion_short_circuit ⟨0, 7⟩
      ⟨Except.ok (), none,
        Except.error (BridgeLayerError.conversionFailed "ack"), none,
        fun _ => Except.ok 0⟩ [1] ⟨2⟩
      (BridgeLayerError.conversionFailed "ack") rfl).2 rfl rfl⟩

end LibsignalJniChat
